/-
  Verification of the AI-gateway OpenAI wrapper worker (src/index.ts).

  The worker is a single request handler: it validates three configuration
  values and the Authorization header of an inbound request, and either
  returns a structured JSON error response or forwards the request (with the
  real credential swapped in) to the configured upstream gateway.

  Shallow embedding notes:
  - JavaScript string truthiness on the configuration values and on the
    Authorization header value is modelled as an emptiness test, and a
    missing header as Option.none.
  - The URL of the inbound request is modelled by its parsed components
    (scheme, host, pathname, search, hash); `new URL(request.url).pathname`
    becomes a field access, which is what the platform guarantees for the
    always-absolute URL of a worker request.
  - `providedAuthorization.split(' ').pop()` is modelled by jsSplitSpace
    (split on the single space character, keeping empty fragments, exactly
    as the JavaScript split with a one-character separator) followed by
    taking the last element.
  - `fetch` is a parameter of the handler: it maps the outbound request to
    either a response (Except.ok) or a thrown error (Except.error).
  - The handler result records the response together with the outbound
    request it issued, if any, so that claims about the single outbound
    call are statable.
  - handleRequest keeps the construction of the outbound request total,
    although the platform Request constructor it models sits outside the
    try/catch of the source and throws on a URL without a scheme;
    urlHasScheme captures the scheme requirement that constructor enforces,
    and the exception-totality claim is settled against it.
-/
import Mathlib

set_option maxRecDepth 8000

namespace AIGatewayWrapper

/-- Parsed components of an absolute URL, as exposed by the platform URL
class: `pathname` carries no query or fragment, which live in `search` and
`hash`. -/
structure URLParts where
  scheme : String
  host : String
  pathname : String
  search : String
  hash : String
deriving DecidableEq, Repr

/-- An inbound HTTP request: URL, method, headers and an opaque body
(`none` models a null body). -/
structure Request where
  url : URLParts
  method : String
  headers : List (String × String)
  body : Option String
deriving DecidableEq, Repr

/-- The three configuration values of the worker (interface Env in the
source); a missing binding is modelled by the empty string, matching the
falsiness test the source applies to each value. -/
structure Env where
  REAL_OPENAI_KEY : String
  DUMMY_WRAPPER_KEY : String
  AI_GATEWAY_ENDPOINT_URL : String
deriving DecidableEq, Repr

/-- The structured error record (interface RequestError in the source);
`param` is typed nullable and every construction site sets it to null. -/
structure RequestError where
  type : String
  code : String
  message : String
  param : Option String
deriving DecidableEq, Repr

/-- An HTTP response: status, headers and body text. Upstream responses are
arbitrary values of this type. -/
structure Response where
  status : Nat
  headers : List (String × String)
  body : String
deriving DecidableEq, Repr

/-- The outbound request built for the upstream gateway (the `new Request`
at the forwarding step, including its literal redirect mode). -/
structure OutboundRequest where
  url : String
  method : String
  headers : List (String × String)
  body : Option String
  redirect : String
deriving DecidableEq, Repr

/-- ASCII lowercasing of a header name, character by character (header
names are ASCII, and the platform compares them case-insensitively). -/
def lowerName (s : String) : String :=
  String.mk (s.toList.map Char.toLower)

/-- Headers.get: case-insensitive lookup of a header value, `none` when the
header is absent. -/
def headersGet (hs : List (String × String)) (name : String) : Option String :=
  (hs.find? (fun p => lowerName p.1 == lowerName name)).map Prod.snd

/-- Headers.set: replace every entry matching the name case-insensitively
with a single entry carrying the new value. -/
def headersSet (hs : List (String × String)) (name : String) (value : String) :
    List (String × String) :=
  hs.filter (fun p => lowerName p.1 != lowerName name) ++ [(name, value)]

/-- Does the first character list start with the second one? -/
def charsStartWith : List Char → List Char → Bool
  | _, [] => true
  | [], _ :: _ => false
  | c :: cs, p :: ps => c = p && charsStartWith cs ps

/-- String.prototype.startsWith on the character level. -/
def strStartsWith (s pre : String) : Bool :=
  charsStartWith s.toList pre.toList

/-- JSON string escaping for the characters occurring in serialized error
records (JSON.stringify). -/
def jsonEscapeChar (c : Char) : String :=
  if c = '\\' then "\\\\"
  else if c = '"' then "\\\""
  else if c = '\n' then "\\n"
  else if c = '\r' then "\\r"
  else if c = '\t' then "\\t"
  else String.singleton c

/-- Escape every character of a string for a JSON string literal. -/
def jsonEscape (s : String) : String :=
  String.join (s.toList.map jsonEscapeChar)

/-- A JSON string literal. -/
def jsonQuote (s : String) : String := "\"" ++ jsonEscape s ++ "\""

/-- JSON.stringify of a RequestError: a flat object with exactly the four
fields type, code, message and param, in declaration order. -/
def stringifyRequestError (e : RequestError) : String :=
  "\x7b\"type\":" ++ jsonQuote e.type ++ ",\"code\":" ++ jsonQuote e.code ++
    ",\"message\":" ++ jsonQuote e.message ++ ",\"param\":" ++
    (match e.param with
     | none => "null"
     | some s => jsonQuote s) ++ "\x7d"

/-- createErrorResponse: serialize the error record and attach the fixed
CORS and content-type headers together with the given status. -/
def createErrorResponse (error : RequestError) (status : Nat) : Response :=
  { status := status
    headers := [("Access-Control-Allow-Origin", "*"),
                ("Content-Type", "application/json;charset=UTF-8")]
    body := stringifyRequestError error }

/-- Split a character list at every space character, keeping empty
fragments, as the JavaScript split with separator " " does. -/
def splitOnSpaceChars : List Char → List (List Char)
  | [] => [[]]
  | c :: cs =>
    if c = ' ' then [] :: splitOnSpaceChars cs
    else
      match splitOnSpaceChars cs with
      | [] => [[c]]
      | t :: ts => (c :: t) :: ts

/-- JavaScript split(" ") on a string. -/
def jsSplitSpace (s : String) : List String :=
  (splitOnSpaceChars s.toList).map (fun cs => String.mk cs)

/-- split(" ").pop(): the token after the last space of the header value
(the whole value when it contains no space). The split of any string is
nonempty, so the default of getLastD is never used. -/
def lastSpaceToken (s : String) : String :=
  (jsSplitSpace s).getLastD ""

/-- Error record for a missing gateway URL configuration value. -/
def noEndpointUrlError : RequestError :=
  { type := "invalid_request_error"
    code := "wrapper_custom_no_endpoint_url_in_env"
    message := "(OpenAI Wrapper) You do not provide a gateway URL in environment variables. Please add AI_GATEWAY_ENDPOINT_URL in the Cloudflare Dashboard."
    param := none }

/-- Error record for a missing substitute credential configuration value. -/
def noDummyKeyInEnvError : RequestError :=
  { type := "invalid_request_error"
    code := "wrapper_custom_no_dummy_key_in_env"
    message := "(OpenAI Wrapper) You do not provide a dummy wrapper key in environment variables. Please add DUMMY_WRAPPER_KEY in the Cloudflare Dashboard."
    param := none }

/-- Error record for a missing (or empty) Authorization header. -/
def noDummyKeyInAuthorizationError : RequestError :=
  { type := "invalid_request_error"
    code := "wrapper_custom_no_dummy_key_in_authorization"
    message := "(OpenAI Wrapper) You do not provide a dummy key in the Authorization header."
    param := none }

/-- Error record for an Authorization token that does not match the
substitute credential. -/
def invalidDummyKeyError : RequestError :=
  { type := "invalid_request_error"
    code := "wrapper_custom_invalid_dummy_key"
    message := "(OpenAI Wrapper) You do not provide a correct dummy key. Note that you should NOT provide a real OpenAI key here, as it is not accepted."
    param := none }

/-- Error record for a missing real credential configuration value. -/
def noRealKeyError : RequestError :=
  { type := "invalid_request_error"
    code := "wrapper_custom_no_real_key_in_env"
    message := "(OpenAI Wrapper) You do not provide a real OpenAI key. Please add REAL_OPENAI_KEY in the Cloudflare Dashboard."
    param := none }

/-- Error record for a substitute credential equal to the real one. -/
def dummyKeyEqualsRealKeyError : RequestError :=
  { type := "invalid_request_error"
    code := "wrapper_custom_dummy_key_equals_to_real_key"
    message := "(OpenAI Wrapper) The dummy key cannot be the same as the real OpenAI key, which is prevented for misusing the real key elsewhere. Please change DUMMY_WRAPPER_KEY in the Cloudflare Dashboard."
    param := none }

/-- Error record for a path that does not start with /v1. -/
def unknownUrlError : RequestError :=
  { type := "invalid_request_error"
    code := "unknown_url"
    message := "(OpenAI Wrapper) Your URL does not start with /v1"
    param := none }

/-- Error record for a thrown upstream fetch. -/
def forwardingFailedError : RequestError :=
  { type := "internal_server_error"
    code := "wrapper_forwarding_failed"
    message := "(OpenAI Wrapper) Failed to forward request to OpenAI API."
    param := none }

/-- Result of one run of the handler: the response returned to the caller
and the outbound request issued to the gateway, when one was issued. -/
structure HandlerOutcome where
  response : Response
  outbound : Option OutboundRequest
deriving DecidableEq, Repr

/-- handleRequest: the validation chain and forwarding step of the worker.
Checks, in source order: gateway URL configured, substitute credential
configured, Authorization header present and truthy, trailing token equal
to the substitute credential, real credential configured, real credential
distinct from the substitute, path under /v1; then one outbound request is
built (prefix stripped, Authorization overwritten) and issued through the
fetch parameter, the thrown case becoming the forwarding-failed error. -/
def handleRequest (env : Env) (request : Request)
    (fetchUpstream : OutboundRequest → Except String Response) : HandlerOutcome :=
  let realOpenAIKey := env.REAL_OPENAI_KEY
  let dummyWrapperKey := env.DUMMY_WRAPPER_KEY
  let aiGatewayEndpointUrl := env.AI_GATEWAY_ENDPOINT_URL
  if aiGatewayEndpointUrl = "" then
    ⟨createErrorResponse noEndpointUrlError 400, none⟩
  else if dummyWrapperKey = "" then
    ⟨createErrorResponse noDummyKeyInEnvError 400, none⟩
  else
    match headersGet request.headers "Authorization" with
    | none => ⟨createErrorResponse noDummyKeyInAuthorizationError 401, none⟩
    | some providedAuthorization =>
      if providedAuthorization = "" then
        ⟨createErrorResponse noDummyKeyInAuthorizationError 401, none⟩
      else
        let providedWrapperKey := lastSpaceToken providedAuthorization
        if providedWrapperKey ≠ dummyWrapperKey then
          ⟨createErrorResponse invalidDummyKeyError 400, none⟩
        else if realOpenAIKey = "" then
          ⟨createErrorResponse noRealKeyError 500, none⟩
        else if realOpenAIKey = dummyWrapperKey then
          ⟨createErrorResponse dummyKeyEqualsRealKeyError 500, none⟩
        else if ¬ strStartsWith request.url.pathname "/v1" then
          ⟨createErrorResponse unknownUrlError 400, none⟩
        else
          let trimmedURL :=
            aiGatewayEndpointUrl ++ request.url.pathname.drop 3
          let gptRequest : OutboundRequest :=
            { url := trimmedURL
              method := request.method
              headers := headersSet request.headers "Authorization"
                  ("Bearer " ++ realOpenAIKey)
              body := request.body
              redirect := "follow" }
          match fetchUpstream gptRequest with
          | Except.ok upstream => ⟨upstream, some gptRequest⟩
          | Except.error _ =>
            ⟨createErrorResponse forwardingFailedError 500, some gptRequest⟩



/-- The outbound request the handler builds for a fully validated inbound
request: gateway base URL with the stripped path appended, method and body
copied, Authorization overwritten with the real credential. -/
def gptRequestOf (env : Env) (request : Request) : OutboundRequest :=
  { url := env.AI_GATEWAY_ENDPOINT_URL ++ request.url.pathname.drop 3
    method := request.method
    headers := headersSet request.headers "Authorization"
        ("Bearer " ++ env.REAL_OPENAI_KEY)
    body := request.body
    redirect := "follow" }

theorem lastSpaceToken_empty : lastSpaceToken "" = "" := by decide

theorem handleRequest_noEndpoint (env : Env) (request : Request)
    (f : OutboundRequest → Except String Response)
    (hg : env.AI_GATEWAY_ENDPOINT_URL = "") :
    handleRequest env request f = ⟨createErrorResponse noEndpointUrlError 400, none⟩ := by
  unfold handleRequest
  simp [hg]

theorem handleRequest_noDummyEnv (env : Env) (request : Request)
    (f : OutboundRequest → Except String Response)
    (hg : env.AI_GATEWAY_ENDPOINT_URL ≠ "") (hd : env.DUMMY_WRAPPER_KEY = "") :
    handleRequest env request f = ⟨createErrorResponse noDummyKeyInEnvError 400, none⟩ := by
  unfold handleRequest
  simp [hg, hd]

theorem handleRequest_noAuth (env : Env) (request : Request)
    (f : OutboundRequest → Except String Response)
    (hg : env.AI_GATEWAY_ENDPOINT_URL ≠ "") (hd : env.DUMMY_WRAPPER_KEY ≠ "")
    (ha : headersGet request.headers "Authorization" = none) :
    handleRequest env request f =
      ⟨createErrorResponse noDummyKeyInAuthorizationError 401, none⟩ := by
  unfold handleRequest
  simp [hg, hd, ha]

theorem handleRequest_emptyAuth (env : Env) (request : Request)
    (f : OutboundRequest → Except String Response)
    (hg : env.AI_GATEWAY_ENDPOINT_URL ≠ "") (hd : env.DUMMY_WRAPPER_KEY ≠ "")
    (ha : headersGet request.headers "Authorization" = some "") :
    handleRequest env request f =
      ⟨createErrorResponse noDummyKeyInAuthorizationError 401, none⟩ := by
  unfold handleRequest
  simp [hg, hd, ha]

theorem handleRequest_invalidKey (env : Env) (request : Request)
    (f : OutboundRequest → Except String Response) (a : String)
    (hg : env.AI_GATEWAY_ENDPOINT_URL ≠ "") (hd : env.DUMMY_WRAPPER_KEY ≠ "")
    (ha : headersGet request.headers "Authorization" = some a) (hne : a ≠ "")
    (ht : lastSpaceToken a ≠ env.DUMMY_WRAPPER_KEY) :
    handleRequest env request f = ⟨createErrorResponse invalidDummyKeyError 400, none⟩ := by
  unfold handleRequest
  simp [hg, hd, ha, hne, ht]

theorem handleRequest_noRealKey (env : Env) (request : Request)
    (f : OutboundRequest → Except String Response) (a : String)
    (hg : env.AI_GATEWAY_ENDPOINT_URL ≠ "") (hd : env.DUMMY_WRAPPER_KEY ≠ "")
    (ha : headersGet request.headers "Authorization" = some a)
    (ht : lastSpaceToken a = env.DUMMY_WRAPPER_KEY)
    (hr : env.REAL_OPENAI_KEY = "") :
    handleRequest env request f = ⟨createErrorResponse noRealKeyError 500, none⟩ := by
  have hne : a ≠ "" := by
    intro h
    subst h
    rw [lastSpaceToken_empty] at ht
    exact hd ht.symm
  unfold handleRequest
  simp [hg, hd, ha, hne, ht, hr]

theorem handleRequest_keyEq (env : Env) (request : Request)
    (f : OutboundRequest → Except String Response) (a : String)
    (hg : env.AI_GATEWAY_ENDPOINT_URL ≠ "") (hd : env.DUMMY_WRAPPER_KEY ≠ "")
    (ha : headersGet request.headers "Authorization" = some a)
    (ht : lastSpaceToken a = env.DUMMY_WRAPPER_KEY)
    (_hr : env.REAL_OPENAI_KEY ≠ "")
    (heq : env.REAL_OPENAI_KEY = env.DUMMY_WRAPPER_KEY) :
    handleRequest env request f =
      ⟨createErrorResponse dummyKeyEqualsRealKeyError 500, none⟩ := by
  have hne : a ≠ "" := by
    intro h
    subst h
    rw [lastSpaceToken_empty] at ht
    exact hd ht.symm
  unfold handleRequest
  simp [hg, hd, ha, hne, ht, heq]

theorem handleRequest_unknownUrl (env : Env) (request : Request)
    (f : OutboundRequest → Except String Response) (a : String)
    (hg : env.AI_GATEWAY_ENDPOINT_URL ≠ "") (hd : env.DUMMY_WRAPPER_KEY ≠ "")
    (ha : headersGet request.headers "Authorization" = some a)
    (ht : lastSpaceToken a = env.DUMMY_WRAPPER_KEY)
    (hr : env.REAL_OPENAI_KEY ≠ "")
    (hne2 : env.REAL_OPENAI_KEY ≠ env.DUMMY_WRAPPER_KEY)
    (hp : strStartsWith request.url.pathname "/v1" = false) :
    handleRequest env request f = ⟨createErrorResponse unknownUrlError 400, none⟩ := by
  have hne : a ≠ "" := by
    intro h
    subst h
    rw [lastSpaceToken_empty] at ht
    exact hd ht.symm
  unfold handleRequest
  simp [hg, hd, ha, hne, ht, hr, hne2, hp]

theorem handleRequest_valid (env : Env) (request : Request)
    (f : OutboundRequest → Except String Response) (a : String)
    (hg : env.AI_GATEWAY_ENDPOINT_URL ≠ "") (hd : env.DUMMY_WRAPPER_KEY ≠ "")
    (ha : headersGet request.headers "Authorization" = some a)
    (ht : lastSpaceToken a = env.DUMMY_WRAPPER_KEY)
    (hr : env.REAL_OPENAI_KEY ≠ "")
    (hne2 : env.REAL_OPENAI_KEY ≠ env.DUMMY_WRAPPER_KEY)
    (hp : strStartsWith request.url.pathname "/v1" = true) :
    handleRequest env request f =
      match f (gptRequestOf env request) with
      | Except.ok upstream => ⟨upstream, some (gptRequestOf env request)⟩
      | Except.error _ =>
        ⟨createErrorResponse forwardingFailedError 500, some (gptRequestOf env request)⟩ := by
  have hne : a ≠ "" := by
    intro h
    subst h
    rw [lastSpaceToken_empty] at ht
    exact hd ht.symm
  unfold handleRequest gptRequestOf
  simp [hg, hd, ha, hne, ht, hr, hne2, hp]

end AIGatewayWrapper

namespace AIGatewayWrapper

theorem handleRequest_outbound_characterization (env : Env) (request : Request)
    (f : OutboundRequest → Except String Response) :
    (handleRequest env request f).outbound = none ∨
    ((handleRequest env request f).outbound = some (gptRequestOf env request) ∧
      env.AI_GATEWAY_ENDPOINT_URL ≠ "" ∧ env.DUMMY_WRAPPER_KEY ≠ "" ∧
      env.REAL_OPENAI_KEY ≠ "" ∧ env.REAL_OPENAI_KEY ≠ env.DUMMY_WRAPPER_KEY ∧
      (∃ a, headersGet request.headers "Authorization" = some a ∧ a ≠ "" ∧
        lastSpaceToken a = env.DUMMY_WRAPPER_KEY) ∧
      strStartsWith request.url.pathname "/v1" = true) := by
  by_cases hg : env.AI_GATEWAY_ENDPOINT_URL = ""
  · exact Or.inl (by rw [handleRequest_noEndpoint env request f hg])
  by_cases hd : env.DUMMY_WRAPPER_KEY = ""
  · exact Or.inl (by rw [handleRequest_noDummyEnv env request f hg hd])
  cases hah : headersGet request.headers "Authorization" with
  | none => exact Or.inl (by rw [handleRequest_noAuth env request f hg hd hah])
  | some a =>
    by_cases hae : a = ""
    · subst hae
      exact Or.inl (by rw [handleRequest_emptyAuth env request f hg hd hah])
    by_cases ht : lastSpaceToken a = env.DUMMY_WRAPPER_KEY
    case neg =>
      exact Or.inl (by rw [handleRequest_invalidKey env request f a hg hd hah hae ht])
    by_cases hr : env.REAL_OPENAI_KEY = ""
    · exact Or.inl (by rw [handleRequest_noRealKey env request f a hg hd hah ht hr])
    by_cases heq : env.REAL_OPENAI_KEY = env.DUMMY_WRAPPER_KEY
    · exact Or.inl (by rw [handleRequest_keyEq env request f a hg hd hah ht hr heq])
    cases hp : strStartsWith request.url.pathname "/v1" with
    | false =>
      exact Or.inl (by rw [handleRequest_unknownUrl env request f a hg hd hah ht hr heq hp])
    | true =>
      refine Or.inr ⟨?_, hg, hd, hr, heq, ⟨a, rfl, hae, ht⟩, rfl⟩
      rw [handleRequest_valid env request f a hg hd hah ht hr heq hp]
      cases f (gptRequestOf env request) <;> rfl

/-- Concrete configuration used by the evaluation witnesses. -/
def envW : Env :=
  { REAL_OPENAI_KEY := "realKey"
    DUMMY_WRAPPER_KEY := "dummyKey"
    AI_GATEWAY_ENDPOINT_URL := "https://gateway.example/openai" }

/-- Concrete inbound URL with a given pathname. -/
def urlW (p : String) : URLParts :=
  { scheme := "https", host := "proxy.example", pathname := p, search := "", hash := "" }

/-- Concrete fully valid inbound request. -/
def reqW : Request :=
  { url := urlW "/v1/chat/completions"
    method := "POST"
    headers := [("Authorization", "Bearer dummyKey")]
    body := some "payload" }

/-- Concrete upstream response. -/
def okResponseW : Response :=
  { status := 200, headers := [("Content-Type", "application/json")], body := "completion" }

/-- Fetch behaviour that always succeeds with okResponseW. -/
def fetchOkW : OutboundRequest → Except String Response :=
  fun _ => Except.ok okResponseW

/-- Fetch behaviour that always throws. -/
def fetchErrW : OutboundRequest → Except String Response :=
  fun _ => Except.error "network error"

/-- C1: a request passing every validation check (all three configuration
values non-empty, real credential distinct from the substitute, Authorization
token equal to the substitute credential, path under /v1) makes the handler
issue exactly one outbound request, whose URL is the gateway base URL
concatenated with the inbound path after the /v1 prefix, whose method and
body are the inbound ones, and whose headers are the inbound headers with
Authorization overwritten to Bearer followed by the real credential; when
the upstream fetch succeeds the upstream response is returned unmodified. -/
theorem c1_forwarding_contract (env : Env) (request : Request)
    (f : OutboundRequest → Except String Response) (a : String)
    (hg : env.AI_GATEWAY_ENDPOINT_URL ≠ "")
    (hd : env.DUMMY_WRAPPER_KEY ≠ "")
    (hr : env.REAL_OPENAI_KEY ≠ "")
    (hne : env.REAL_OPENAI_KEY ≠ env.DUMMY_WRAPPER_KEY)
    (ha : headersGet request.headers "Authorization" = some a)
    (ht : lastSpaceToken a = env.DUMMY_WRAPPER_KEY)
    (hp : strStartsWith request.url.pathname "/v1" = true) :
    (handleRequest env request f).outbound =
      some { url := env.AI_GATEWAY_ENDPOINT_URL ++ request.url.pathname.drop 3
             method := request.method
             headers := headersSet request.headers "Authorization"
                 ("Bearer " ++ env.REAL_OPENAI_KEY)
             body := request.body
             redirect := "follow" } ∧
    (∀ out upstream, (handleRequest env request f).outbound = some out →
      f out = Except.ok upstream →
      (handleRequest env request f).response = upstream) := by
  have h := handleRequest_valid env request f a hg hd ha ht hr hne hp
  constructor
  · rw [h]
    cases f (gptRequestOf env request) <;> rfl
  · intro out upstream hout hok
    cases hf : f (gptRequestOf env request) with
    | ok upstream2 =>
      have hout2 : some (gptRequestOf env request) = some out := by
        rw [h, hf] at hout
        exact hout
      have hgo : gptRequestOf env request = out := Option.some.inj hout2
      have hval : upstream2 = upstream := by
        apply Except.ok.inj
        rw [← hf, hgo]
        exact hok
      rw [h, hf, hval]
    | error e =>
      have hgo : gptRequestOf env request = out := by
        rw [h, hf] at hout
        exact Option.some.inj hout
      rw [← hgo, hf] at hok
      simp at hok

/-- Evaluation witness for C1 at a concrete valid request. -/
theorem c1_forwarding_contract_witness :
    (handleRequest envW reqW fetchOkW).outbound =
      some { url := "https://gateway.example/openai/chat/completions"
             method := "POST"
             headers := [("Authorization", "Bearer realKey")]
             body := some "payload"
             redirect := "follow" } ∧
    (handleRequest envW reqW fetchOkW).response = okResponseW := by
  have h := c1_forwarding_contract envW reqW fetchOkW "Bearer dummyKey"
    (by decide) (by decide) (by decide) (by decide) (by decide) (by decide) (by decide)
  refine ⟨?_, ?_⟩
  · exact h.1
  · exact h.2 _ okResponseW h.1 rfl

/-- C2 (amended): the handler performs its checks in this fixed short-circuit
order, the first failing check determining the response: (1) gateway URL
non-empty else wrapper_custom_no_endpoint_url_in_env 400, (2) substitute
credential non-empty else wrapper_custom_no_dummy_key_in_env 400, (3)
Authorization header present and non-empty else
wrapper_custom_no_dummy_key_in_authorization 401, (4) extracted token equal
to the substitute credential else wrapper_custom_invalid_dummy_key 400, (5)
real credential non-empty else wrapper_custom_no_real_key_in_env 500, (6)
real credential distinct from the substitute else
wrapper_custom_dummy_key_equals_to_real_key 500, (7) path under /v1 else
unknown_url 400; only then is the request forwarded. -/
theorem c2_check_order (env : Env) (request : Request)
    (f : OutboundRequest → Except String Response) :
    (env.AI_GATEWAY_ENDPOINT_URL = "" →
      handleRequest env request f = ⟨createErrorResponse noEndpointUrlError 400, none⟩) ∧
    (env.AI_GATEWAY_ENDPOINT_URL ≠ "" → env.DUMMY_WRAPPER_KEY = "" →
      handleRequest env request f = ⟨createErrorResponse noDummyKeyInEnvError 400, none⟩) ∧
    (env.AI_GATEWAY_ENDPOINT_URL ≠ "" → env.DUMMY_WRAPPER_KEY ≠ "" →
      (headersGet request.headers "Authorization" = none ∨
        headersGet request.headers "Authorization" = some "") →
      handleRequest env request f =
        ⟨createErrorResponse noDummyKeyInAuthorizationError 401, none⟩) ∧
    (∀ a, env.AI_GATEWAY_ENDPOINT_URL ≠ "" → env.DUMMY_WRAPPER_KEY ≠ "" →
      headersGet request.headers "Authorization" = some a → a ≠ "" →
      lastSpaceToken a ≠ env.DUMMY_WRAPPER_KEY →
      handleRequest env request f = ⟨createErrorResponse invalidDummyKeyError 400, none⟩) ∧
    (∀ a, env.AI_GATEWAY_ENDPOINT_URL ≠ "" → env.DUMMY_WRAPPER_KEY ≠ "" →
      headersGet request.headers "Authorization" = some a →
      lastSpaceToken a = env.DUMMY_WRAPPER_KEY → env.REAL_OPENAI_KEY = "" →
      handleRequest env request f = ⟨createErrorResponse noRealKeyError 500, none⟩) ∧
    (∀ a, env.AI_GATEWAY_ENDPOINT_URL ≠ "" → env.DUMMY_WRAPPER_KEY ≠ "" →
      headersGet request.headers "Authorization" = some a →
      lastSpaceToken a = env.DUMMY_WRAPPER_KEY → env.REAL_OPENAI_KEY ≠ "" →
      env.REAL_OPENAI_KEY = env.DUMMY_WRAPPER_KEY →
      handleRequest env request f =
        ⟨createErrorResponse dummyKeyEqualsRealKeyError 500, none⟩) ∧
    (∀ a, env.AI_GATEWAY_ENDPOINT_URL ≠ "" → env.DUMMY_WRAPPER_KEY ≠ "" →
      headersGet request.headers "Authorization" = some a →
      lastSpaceToken a = env.DUMMY_WRAPPER_KEY → env.REAL_OPENAI_KEY ≠ "" →
      env.REAL_OPENAI_KEY ≠ env.DUMMY_WRAPPER_KEY →
      strStartsWith request.url.pathname "/v1" = false →
      handleRequest env request f = ⟨createErrorResponse unknownUrlError 400, none⟩) ∧
    (∀ a, env.AI_GATEWAY_ENDPOINT_URL ≠ "" → env.DUMMY_WRAPPER_KEY ≠ "" →
      headersGet request.headers "Authorization" = some a →
      lastSpaceToken a = env.DUMMY_WRAPPER_KEY → env.REAL_OPENAI_KEY ≠ "" →
      env.REAL_OPENAI_KEY ≠ env.DUMMY_WRAPPER_KEY →
      strStartsWith request.url.pathname "/v1" = true →
      (handleRequest env request f).outbound = some (gptRequestOf env request) ∧
      (∀ upstream, f (gptRequestOf env request) = Except.ok upstream →
        (handleRequest env request f).response = upstream)) := by
  refine ⟨?_, ?_, ?_, ?_, ?_, ?_, ?_, ?_⟩
  · intro hg
    exact handleRequest_noEndpoint env request f hg
  · intro hg hd
    exact handleRequest_noDummyEnv env request f hg hd
  · intro hg hd hah
    rcases hah with hah | hah
    · exact handleRequest_noAuth env request f hg hd hah
    · exact handleRequest_emptyAuth env request f hg hd hah
  · intro a hg hd hah hae ht
    exact handleRequest_invalidKey env request f a hg hd hah hae ht
  · intro a hg hd hah ht hr
    exact handleRequest_noRealKey env request f a hg hd hah ht hr
  · intro a hg hd hah ht hr heq
    exact handleRequest_keyEq env request f a hg hd hah ht hr heq
  · intro a hg hd hah ht hr hne hp
    exact handleRequest_unknownUrl env request f a hg hd hah ht hr hne hp
  · intro a hg hd hah ht hr hne hp
    have h := handleRequest_valid env request f a hg hd hah ht hr hne hp
    constructor
    · rw [h]
      cases f (gptRequestOf env request) <;> rfl
    · intro upstream hok
      rw [h, hok]

/-- Counterexample to C2 as stated: with a valid configuration and an
Authorization header that is present but empty, the first failing check of
the claimed order is the token comparison, so the claim predicts
wrapper_custom_invalid_dummy_key with status 400; the handler instead
treats the empty header value as missing and returns
wrapper_custom_no_dummy_key_in_authorization with status 401. -/
theorem c2_counterexample :
    handleRequest envW { reqW with headers := [("Authorization", "")] } fetchErrW =
      ⟨createErrorResponse noDummyKeyInAuthorizationError 401, none⟩ ∧
    handleRequest envW { reqW with headers := [("Authorization", "")] } fetchErrW ≠
      ⟨createErrorResponse invalidDummyKeyError 400, none⟩ := by
  constructor
  · decide
  · decide

/-- Evaluation witness for C2 at a concrete valid request, through the final
conjunct of the check order. -/
theorem c2_check_order_witness :
    (handleRequest envW reqW fetchOkW).outbound = some (gptRequestOf envW reqW) ∧
    (handleRequest envW reqW fetchOkW).response = okResponseW := by
  have h := (c2_check_order envW reqW fetchOkW).2.2.2.2.2.2.2 "Bearer dummyKey"
    (by decide) (by decide) (by decide) (by decide) (by decide) (by decide) (by decide)
  exact ⟨h.1, h.2 okResponseW rfl⟩

/-- C3: two configurations that differ only in the real credential are
indistinguishable to a caller whose authentication fails (Authorization
header missing, or extracted token different from the substitute
credential): the handler produces identical outcomes under both. -/
theorem c3_real_key_noninterference (env1 env2 : Env) (request : Request)
    (f : OutboundRequest → Except String Response)
    (hdum : env1.DUMMY_WRAPPER_KEY = env2.DUMMY_WRAPPER_KEY)
    (hgw : env1.AI_GATEWAY_ENDPOINT_URL = env2.AI_GATEWAY_ENDPOINT_URL)
    (hfail : headersGet request.headers "Authorization" = none ∨
      ∀ a, headersGet request.headers "Authorization" = some a →
        lastSpaceToken a ≠ env1.DUMMY_WRAPPER_KEY) :
    handleRequest env1 request f = handleRequest env2 request f := by
  by_cases hg : env1.AI_GATEWAY_ENDPOINT_URL = ""
  · rw [handleRequest_noEndpoint env1 request f hg,
      handleRequest_noEndpoint env2 request f (hgw ▸ hg)]
  have hg2 : env2.AI_GATEWAY_ENDPOINT_URL ≠ "" := hgw ▸ hg
  by_cases hd : env1.DUMMY_WRAPPER_KEY = ""
  · rw [handleRequest_noDummyEnv env1 request f hg hd,
      handleRequest_noDummyEnv env2 request f hg2 (hdum ▸ hd)]
  have hd2 : env2.DUMMY_WRAPPER_KEY ≠ "" := hdum ▸ hd
  cases hah : headersGet request.headers "Authorization" with
  | none =>
    rw [handleRequest_noAuth env1 request f hg hd hah,
      handleRequest_noAuth env2 request f hg2 hd2 hah]
  | some a =>
    have htok : lastSpaceToken a ≠ env1.DUMMY_WRAPPER_KEY := by
      rcases hfail with h | h
      · rw [hah] at h
        cases h
      · exact h a hah
    by_cases hae : a = ""
    · subst hae
      rw [handleRequest_emptyAuth env1 request f hg hd hah,
        handleRequest_emptyAuth env2 request f hg2 hd2 hah]
    · rw [handleRequest_invalidKey env1 request f a hg hd hah hae htok,
        handleRequest_invalidKey env2 request f a hg2 hd2 hah hae (hdum ▸ htok)]

/-- Evaluation witness for C3 at a concrete unauthenticated request and two
configurations differing only in the real credential. -/
theorem c3_real_key_noninterference_witness :
    handleRequest envW { reqW with headers := [] } fetchErrW =
      handleRequest { envW with REAL_OPENAI_KEY := "" } { reqW with headers := [] } fetchErrW := by
  exact c3_real_key_noninterference envW { envW with REAL_OPENAI_KEY := "" }
    { reqW with headers := [] } fetchErrW rfl rfl (Or.inl (by decide))

/-- Splitting a character list with no space character yields the whole
list as its only fragment. -/
theorem splitOnSpaceChars_no_space (cs : List Char) (h : ' ' ∉ cs) :
    splitOnSpaceChars cs = [cs] := by
  induction cs with
  | nil => rfl
  | cons c cs ih =>
    have hc : c ≠ ' ' := fun hce => h (hce ▸ List.mem_cons_self c cs)
    have hcs : ' ' ∉ cs := fun hm => h (List.mem_cons_of_mem c hm)
    simp [splitOnSpaceChars, hc, ih hcs]

/-- Splitting a character list with exactly one space yields the two
fragments around it. -/
theorem splitOnSpaceChars_single (xs ys : List Char) (hx : ' ' ∉ xs) (hy : ' ' ∉ ys) :
    splitOnSpaceChars (xs ++ ' ' :: ys) = [xs, ys] := by
  induction xs with
  | nil => simp [splitOnSpaceChars, splitOnSpaceChars_no_space ys hy]
  | cons c cs ih =>
    have hc : c ≠ ' ' := fun hce => hx (hce ▸ List.mem_cons_self c cs)
    have hcs : ' ' ∉ cs := fun hm => hx (List.mem_cons_of_mem c hm)
    simp [splitOnSpaceChars, hc, ih hcs]

/-- A header value without spaces is its own trailing token (the bare-token
form of the Authorization header). -/
theorem lastSpaceToken_no_space (d : String) (h : ' ' ∉ d.toList) :
    lastSpaceToken d = d := by
  unfold lastSpaceToken jsSplitSpace
  rw [splitOnSpaceChars_no_space d.toList h]
  rfl

/-- A Bearer-prefixed header value whose token has no spaces yields exactly
the token. -/
theorem lastSpaceToken_bearer (d : String) (h : ' ' ∉ d.toList) :
    lastSpaceToken ("Bearer " ++ d) = d := by
  unfold lastSpaceToken jsSplitSpace
  have hx : ' ' ∉ ['B', 'e', 'a', 'r', 'e', 'r'] := by decide
  have hsplit : ("Bearer " ++ d).toList = ['B', 'e', 'a', 'r', 'e', 'r'] ++ ' ' :: d.toList := rfl
  rw [hsplit, splitOnSpaceChars_single _ _ hx h]
  rfl

/-- Follows the words of the spec, for comparison with the source token
extraction: split at every whitespace character, keeping empty fragments. -/
def splitOnWhitespaceChars : List Char → List (List Char)
  | [] => [[]]
  | c :: cs =>
    if c.isWhitespace then [] :: splitOnWhitespaceChars cs
    else
      match splitOnWhitespaceChars cs with
      | [] => [[c]]
      | t :: ts => (c :: t) :: ts

/-- Follows the words of the spec, for comparison with the source token
extraction: the last whitespace-delimited segment of the header value. -/
def specLastWhitespaceToken (s : String) : String :=
  ((splitOnWhitespaceChars s.toList).map (fun cs => String.mk cs)).getLastD ""

/-- Counterexample to C4 as stated: for the header value built from Bearer,
a tab character and the substitute credential, the last whitespace-delimited
segment equals the substitute credential, so the claim predicts a match and
that the handler proceeds; the handler splits on the space character only,
finds a token different from the credential, and rejects the request with
wrapper_custom_invalid_dummy_key and status 400. -/
theorem c4_counterexample :
    specLastWhitespaceToken "Bearer\tdummyKey" = "dummyKey" ∧
    handleRequest envW { reqW with headers := [("Authorization", "Bearer\tdummyKey")] }
        fetchErrW =
      ⟨createErrorResponse invalidDummyKeyError 400, none⟩ := by
  constructor
  · decide
  · decide

/-- C4 (amended): for every request with a present, non-empty Authorization
header, under a configuration with gateway URL and substitute credential
set, the handler compares the token after the last space character of the
header value (its last space-delimited segment) against the substitute
credential by exact string equality; on mismatch it returns
wrapper_custom_invalid_dummy_key with status 400 regardless of body or
method, and on match it proceeds to the later checks; when the substitute
credential contains no space character, both the Bearer form and the
bare-token form of the header are accepted. -/
theorem c4_token_comparison (env : Env) (request : Request)
    (f : OutboundRequest → Except String Response) (a : String)
    (hg : env.AI_GATEWAY_ENDPOINT_URL ≠ "")
    (hd : env.DUMMY_WRAPPER_KEY ≠ "")
    (ha : headersGet request.headers "Authorization" = some a)
    (hae : a ≠ "") :
    (lastSpaceToken a ≠ env.DUMMY_WRAPPER_KEY →
      ∀ m b, handleRequest env { request with method := m, body := b } f =
        ⟨createErrorResponse invalidDummyKeyError 400, none⟩) ∧
    (lastSpaceToken a = env.DUMMY_WRAPPER_KEY →
      handleRequest env request f = ⟨createErrorResponse noRealKeyError 500, none⟩ ∨
      handleRequest env request f =
        ⟨createErrorResponse dummyKeyEqualsRealKeyError 500, none⟩ ∨
      handleRequest env request f = ⟨createErrorResponse unknownUrlError 400, none⟩ ∨
      (handleRequest env request f).outbound = some (gptRequestOf env request)) ∧
    (' ' ∉ env.DUMMY_WRAPPER_KEY.toList →
      lastSpaceToken ("Bearer " ++ env.DUMMY_WRAPPER_KEY) = env.DUMMY_WRAPPER_KEY ∧
      lastSpaceToken env.DUMMY_WRAPPER_KEY = env.DUMMY_WRAPPER_KEY) := by
  refine ⟨?_, ?_, ?_⟩
  · intro ht m b
    exact handleRequest_invalidKey env { request with method := m, body := b } f a
      hg hd ha hae ht
  · intro ht
    by_cases hr : env.REAL_OPENAI_KEY = ""
    · exact Or.inl (handleRequest_noRealKey env request f a hg hd ha ht hr)
    by_cases heq : env.REAL_OPENAI_KEY = env.DUMMY_WRAPPER_KEY
    · exact Or.inr (Or.inl (handleRequest_keyEq env request f a hg hd ha ht hr heq))
    cases hp : strStartsWith request.url.pathname "/v1" with
    | false =>
      exact Or.inr (Or.inr (Or.inl
        (handleRequest_unknownUrl env request f a hg hd ha ht hr heq hp)))
    | true =>
      refine Or.inr (Or.inr (Or.inr ?_))
      rw [handleRequest_valid env request f a hg hd ha ht hr heq hp]
      cases f (gptRequestOf env request) <;> rfl
  · intro hns
    exact ⟨lastSpaceToken_bearer _ hns, lastSpaceToken_no_space _ hns⟩

/-- Evaluation witness for C4 at a concrete mismatching header and for the
two accepted header forms. -/
theorem c4_token_comparison_witness :
    handleRequest envW
        { reqW with headers := [("Authorization", "Bearer wrongKey")]
                    method := "GET"
                    body := none } fetchErrW =
      ⟨createErrorResponse invalidDummyKeyError 400, none⟩ ∧
    lastSpaceToken ("Bearer " ++ envW.DUMMY_WRAPPER_KEY) = envW.DUMMY_WRAPPER_KEY ∧
    lastSpaceToken envW.DUMMY_WRAPPER_KEY = envW.DUMMY_WRAPPER_KEY := by
  have h := c4_token_comparison envW
    { reqW with headers := [("Authorization", "Bearer wrongKey")] } fetchErrW
    "Bearer wrongKey" (by decide) (by decide) (by decide) (by decide)
  refine ⟨h.1 (by decide) "GET" none, (h.2.2 (by decide)).1, (h.2.2 (by decide)).2⟩

/-- Counterexample to C5 as stated: with the real credential missing and a
request carrying no Authorization header, the claim predicts the error code
corresponding to the missing value, wrapper_custom_no_real_key_in_env; the
handler instead answers wrapper_custom_no_dummy_key_in_authorization with
status 401, because authentication is checked before the real credential. -/
theorem c5_counterexample :
    handleRequest { envW with REAL_OPENAI_KEY := "" } { reqW with headers := [] }
        fetchErrW =
      ⟨createErrorResponse noDummyKeyInAuthorizationError 401, none⟩ ∧
    (handleRequest { envW with REAL_OPENAI_KEY := "" } { reqW with headers := [] }
        fetchErrW).response ≠
      createErrorResponse noRealKeyError 500 := by
  constructor
  · decide
  · decide

/-- C5 (amended): when the gateway URL is empty the handler answers
wrapper_custom_no_endpoint_url_in_env; otherwise, when the substitute
credential is empty, wrapper_custom_no_dummy_key_in_env; otherwise, when the
real credential is empty and the Authorization token matches the substitute
credential, wrapper_custom_no_real_key_in_env; and whenever any of the three
configuration values is empty, no outbound call is attempted. -/
theorem c5_missing_config (env : Env) (request : Request)
    (f : OutboundRequest → Except String Response) :
    (env.AI_GATEWAY_ENDPOINT_URL = "" →
      handleRequest env request f = ⟨createErrorResponse noEndpointUrlError 400, none⟩) ∧
    (env.AI_GATEWAY_ENDPOINT_URL ≠ "" → env.DUMMY_WRAPPER_KEY = "" →
      handleRequest env request f = ⟨createErrorResponse noDummyKeyInEnvError 400, none⟩) ∧
    (∀ a, env.AI_GATEWAY_ENDPOINT_URL ≠ "" → env.DUMMY_WRAPPER_KEY ≠ "" →
      headersGet request.headers "Authorization" = some a →
      lastSpaceToken a = env.DUMMY_WRAPPER_KEY → env.REAL_OPENAI_KEY = "" →
      handleRequest env request f = ⟨createErrorResponse noRealKeyError 500, none⟩) ∧
    ((env.AI_GATEWAY_ENDPOINT_URL = "" ∨ env.DUMMY_WRAPPER_KEY = "" ∨
        env.REAL_OPENAI_KEY = "") →
      (handleRequest env request f).outbound = none) := by
  refine ⟨?_, ?_, ?_, ?_⟩
  · exact handleRequest_noEndpoint env request f
  · exact handleRequest_noDummyEnv env request f
  · intro a hg hd hah ht hr
    exact handleRequest_noRealKey env request f a hg hd hah ht hr
  · intro hmiss
    rcases handleRequest_outbound_characterization env request f with h | ⟨-, hg, hd, hr, -, -, -⟩
    · exact h
    · rcases hmiss with hm | hm | hm
      · exact absurd hm hg
      · exact absurd hm hd
      · exact absurd hm hr

/-- Evaluation witness for C5 with the substitute credential unset. -/
theorem c5_missing_config_witness :
    handleRequest { envW with DUMMY_WRAPPER_KEY := "" } reqW fetchErrW =
      ⟨createErrorResponse noDummyKeyInEnvError 400, none⟩ ∧
    (handleRequest { envW with DUMMY_WRAPPER_KEY := "" } reqW fetchErrW).outbound = none := by
  have h := c5_missing_config { envW with DUMMY_WRAPPER_KEY := "" } reqW fetchErrW
  exact ⟨h.2.1 (by decide) rfl, h.2.2.2 (Or.inr (Or.inl rfl))⟩

/-- The eight error records of the taxonomy with their statuses. -/
def errorTable : List (RequestError × Nat) :=
  [(noEndpointUrlError, 400), (noDummyKeyInEnvError, 400),
   (noDummyKeyInAuthorizationError, 401), (invalidDummyKeyError, 400),
   (noRealKeyError, 500), (dummyKeyEqualsRealKeyError, 500),
   (unknownUrlError, 400), (forwardingFailedError, 500)]

theorem handleRequest_response_characterization (env : Env) (request : Request)
    (f : OutboundRequest → Except String Response) :
    (∃ out upstream, (handleRequest env request f).outbound = some out ∧
      f out = Except.ok upstream ∧ (handleRequest env request f).response = upstream) ∨
    (∃ e s, (e, s) ∈ errorTable ∧
      handleRequest env request f = ⟨createErrorResponse e s, (handleRequest env request f).outbound⟩) := by
  by_cases hg : env.AI_GATEWAY_ENDPOINT_URL = ""
  · exact Or.inr ⟨noEndpointUrlError, 400, by decide,
      by rw [handleRequest_noEndpoint env request f hg]⟩
  by_cases hd : env.DUMMY_WRAPPER_KEY = ""
  · exact Or.inr ⟨noDummyKeyInEnvError, 400, by decide,
      by rw [handleRequest_noDummyEnv env request f hg hd]⟩
  cases hah : headersGet request.headers "Authorization" with
  | none =>
    exact Or.inr ⟨noDummyKeyInAuthorizationError, 401, by decide,
      by rw [handleRequest_noAuth env request f hg hd hah]⟩
  | some a =>
    by_cases hae : a = ""
    · subst hae
      exact Or.inr ⟨noDummyKeyInAuthorizationError, 401, by decide,
        by rw [handleRequest_emptyAuth env request f hg hd hah]⟩
    by_cases ht : lastSpaceToken a = env.DUMMY_WRAPPER_KEY
    case neg =>
      exact Or.inr ⟨invalidDummyKeyError, 400, by decide,
        by rw [handleRequest_invalidKey env request f a hg hd hah hae ht]⟩
    by_cases hr : env.REAL_OPENAI_KEY = ""
    · exact Or.inr ⟨noRealKeyError, 500, by decide,
        by rw [handleRequest_noRealKey env request f a hg hd hah ht hr]⟩
    by_cases heq : env.REAL_OPENAI_KEY = env.DUMMY_WRAPPER_KEY
    · exact Or.inr ⟨dummyKeyEqualsRealKeyError, 500, by decide,
        by rw [handleRequest_keyEq env request f a hg hd hah ht hr heq]⟩
    cases hp : strStartsWith request.url.pathname "/v1" with
    | false =>
      exact Or.inr ⟨unknownUrlError, 400, by decide,
        by rw [handleRequest_unknownUrl env request f a hg hd hah ht hr heq hp]⟩
    | true =>
      have hv := handleRequest_valid env request f a hg hd hah ht hr heq hp
      cases hf : f (gptRequestOf env request) with
      | ok upstream =>
        exact Or.inl ⟨gptRequestOf env request, upstream,
          by rw [hv, hf], hf, by rw [hv, hf]⟩
      | error e =>
        exact Or.inr ⟨forwardingFailedError, 500, by decide, by rw [hv, hf]⟩

/-- Is the character allowed inside a URL scheme (after its leading ASCII
letter): ASCII alphanumeric, plus, minus or dot. -/
def schemeChar (c : Char) : Bool :=
  c.isAlpha || c.isDigit || c = '+' || c = '-' || c = '.'

/-- Does the character list continue a URL scheme up to a colon? -/
def schemeColonRun : List Char → Bool
  | [] => false
  | c :: cs => c = ':' || (schemeChar c && schemeColonRun cs)

/-- Does the string begin with a valid URL scheme (an ASCII letter, then
letters, digits, plus, minus or dot, then a colon)? The platform URL parser
requires one for an absolute URL, and the Request constructor at the
forwarding step supplies no base URL, so it throws a TypeError on any
string without a scheme. -/
def urlHasScheme (url : String) : Bool :=
  match url.toList with
  | [] => false
  | c :: cs => c.isAlpha && schemeColonRun cs

/-- Configuration whose gateway base URL is non-empty but has no URL
scheme, as a dashboard misconfiguration can produce. -/
def envNoScheme : Env :=
  { REAL_OPENAI_KEY := "realKey"
    DUMMY_WRAPPER_KEY := "dummyKey"
    AI_GATEWAY_ENDPOINT_URL := "my-gateway" }

/-- C6: the code violates the claim. Under this fully validated request and
the non-empty, scheme-less gateway base URL my-gateway, every check passes
and the handler builds the outbound URL my-gateway/chat/completions, which
carries no URL scheme; the platform Request constructor, which the source
invokes before entering its try/catch (the try wraps only the fetch),
throws a TypeError on that URL, and the exception escapes the handler
unformatted instead of being converted into the structured JSON error
shape. -/
theorem c6_construction_escape :
    (handleRequest envNoScheme reqW fetchOkW).outbound =
      some (gptRequestOf envNoScheme reqW) ∧
    (gptRequestOf envNoScheme reqW).url = "my-gateway/chat/completions" ∧
    urlHasScheme (gptRequestOf envNoScheme reqW).url = false := by
  refine ⟨?_, ?_, ?_⟩
  · decide
  · decide
  · decide

/-- C7: under a fully valid configuration and successful authentication, a
request whose path does not start with /v1 is answered with unknown_url and
status 400, and no outbound request is issued. -/
theorem c7_unknown_url (env : Env) (request : Request)
    (f : OutboundRequest → Except String Response) (a : String)
    (hg : env.AI_GATEWAY_ENDPOINT_URL ≠ "")
    (hd : env.DUMMY_WRAPPER_KEY ≠ "")
    (hr : env.REAL_OPENAI_KEY ≠ "")
    (hne : env.REAL_OPENAI_KEY ≠ env.DUMMY_WRAPPER_KEY)
    (ha : headersGet request.headers "Authorization" = some a)
    (ht : lastSpaceToken a = env.DUMMY_WRAPPER_KEY)
    (hp : strStartsWith request.url.pathname "/v1" = false) :
    handleRequest env request f = ⟨createErrorResponse unknownUrlError 400, none⟩ :=
  handleRequest_unknownUrl env request f a hg hd ha ht hr hne hp

/-- Evaluation witness for C7: valid authentication, path /health. -/
theorem c7_unknown_url_witness :
    handleRequest envW { reqW with url := urlW "/health" } fetchErrW =
      ⟨createErrorResponse unknownUrlError 400, none⟩ :=
  c7_unknown_url envW { reqW with url := urlW "/health" } fetchErrW "Bearer dummyKey"
    (by decide) (by decide) (by decide) (by decide) (by decide) (by decide) (by decide)

/-- Every record of the error taxonomy has a null param field. -/
theorem errorTable_param_none : ∀ p ∈ errorTable, p.1.param = none := by
  decide

/-- C8: every response of the handler is either the untouched upstream
response or an error response built by createErrorResponse: a body that is
the flat JSON serialization of a record with exactly the fields type, code,
message and a param that is always null, under the fixed headers
Access-Control-Allow-Origin * and Content-Type application/json;charset=UTF-8,
the forwarding-failed response with status 500 included. -/
theorem c8_error_response_shape (env : Env) (request : Request)
    (f : OutboundRequest → Except String Response) :
    (∃ out upstream, (handleRequest env request f).outbound = some out ∧
      f out = Except.ok upstream ∧ (handleRequest env request f).response = upstream) ∨
    (∃ e s, (handleRequest env request f).response = createErrorResponse e s ∧
      e.param = none ∧
      (handleRequest env request f).response.headers =
        [("Access-Control-Allow-Origin", "*"),
         ("Content-Type", "application/json;charset=UTF-8")] ∧
      (handleRequest env request f).response.body = stringifyRequestError e ∧
      (handleRequest env request f).response.status = s) := by
  rcases handleRequest_response_characterization env request f with h | ⟨e, s, hmem, heq⟩
  · exact Or.inl h
  · have hparam : e.param = none := errorTable_param_none (e, s) hmem
    refine Or.inr ⟨e, s, by rw [heq], hparam, ?_, ?_, ?_⟩ <;> rw [heq] <;> rfl

/-- C9: the outcome of the handler is independent of the query string and
fragment of the inbound URL, and every outbound URL it issues is built from
the gateway base URL and the pathname alone, so no query or fragment ever
reaches the upstream gateway. -/
theorem c9_query_fragment_discarded (env : Env) (request : Request)
    (f : OutboundRequest → Except String Response) (s1 h1 s2 h2 : String) :
    handleRequest env { request with url := { request.url with search := s1, hash := h1 } } f =
      handleRequest env { request with url := { request.url with search := s2, hash := h2 } } f ∧
    (∀ out, (handleRequest env request f).outbound = some out →
      out.url = env.AI_GATEWAY_ENDPOINT_URL ++ request.url.pathname.drop 3) := by
  constructor
  · rfl
  · intro out hout
    rcases handleRequest_outbound_characterization env request f with h | ⟨hsome, -, -, -, -, -, -⟩
    · rw [h] at hout
      cases hout
    · rw [hsome] at hout
      have hgo := Option.some.inj hout
      rw [← hgo]
      rfl

/-- Evaluation witness for C9 at a concrete request with query and
fragment. -/
theorem c9_query_fragment_discarded_witness :
    handleRequest envW
        { reqW with url := { reqW.url with search := "?stream=true", hash := "#frag" } }
        fetchOkW =
      handleRequest envW reqW fetchOkW ∧
    (gptRequestOf envW reqW).url = "https://gateway.example/openai/chat/completions" := by
  have h := c9_query_fragment_discarded envW reqW fetchOkW "?stream=true" "#frag" "" ""
  exact ⟨h.1, (h.2 (gptRequestOf envW reqW) (by decide)).trans (by decide)⟩

/-- C10: the path check requires only that the pathname begin with the
three characters /v1: under a valid configuration with successful
authentication, a request with pathname /v1abc is not rejected but forwarded
with suffix abc appended to the gateway base URL, and a request with
pathname exactly /v1 is forwarded with the empty suffix. -/
theorem c10_loose_path_check (env : Env) (request : Request)
    (f : OutboundRequest → Except String Response) (a : String)
    (hg : env.AI_GATEWAY_ENDPOINT_URL ≠ "")
    (hd : env.DUMMY_WRAPPER_KEY ≠ "")
    (hr : env.REAL_OPENAI_KEY ≠ "")
    (hne : env.REAL_OPENAI_KEY ≠ env.DUMMY_WRAPPER_KEY)
    (ha : headersGet request.headers "Authorization" = some a)
    (ht : lastSpaceToken a = env.DUMMY_WRAPPER_KEY) :
    (request.url.pathname = "/v1abc" →
      (handleRequest env request f).outbound = some (gptRequestOf env request) ∧
      (gptRequestOf env request).url = env.AI_GATEWAY_ENDPOINT_URL ++ "abc") ∧
    (request.url.pathname = "/v1" →
      (handleRequest env request f).outbound = some (gptRequestOf env request) ∧
      (gptRequestOf env request).url = env.AI_GATEWAY_ENDPOINT_URL ++ "") := by
  constructor
  · intro hpath
    have hp : strStartsWith request.url.pathname "/v1" = true := by
      rw [hpath]
      decide
    refine ⟨?_, ?_⟩
    · rw [handleRequest_valid env request f a hg hd ha ht hr hne hp]
      cases f (gptRequestOf env request) <;> rfl
    · have hdrop : "/v1abc".drop 3 = "abc" := by decide
      unfold gptRequestOf
      rw [hpath, hdrop]
  · intro hpath
    have hp : strStartsWith request.url.pathname "/v1" = true := by
      rw [hpath]
      decide
    refine ⟨?_, ?_⟩
    · rw [handleRequest_valid env request f a hg hd ha ht hr hne hp]
      cases f (gptRequestOf env request) <;> rfl
    · have hdrop : "/v1".drop 3 = "" := by decide
      unfold gptRequestOf
      rw [hpath, hdrop]

/-- Evaluation witness for C10 at pathname /v1abc. -/
theorem c10_loose_path_check_witness :
    (handleRequest envW { reqW with url := urlW "/v1abc" } fetchOkW).outbound =
      some (gptRequestOf envW { reqW with url := urlW "/v1abc" }) ∧
    (gptRequestOf envW { reqW with url := urlW "/v1abc" }).url =
      "https://gateway.example/openai" ++ "abc" := by
  have h := c10_loose_path_check envW { reqW with url := urlW "/v1abc" } fetchOkW
    "Bearer dummyKey" (by decide) (by decide) (by decide) (by decide) (by decide) (by decide)
  have h2 := h.1 rfl
  exact ⟨h2.1, h2.2⟩

end AIGatewayWrapper
